import Mathlib

/-!
# Verification of the Allfeat node service composition

Shallow embedding of `node/src/service.rs` and `node/src/eth.rs`:
the block-import pipeline wiring, the background tasks spawned by
`spawn_tasks` / `start_node_impl` / `start_node`, and the bounded
cache maintenance (log-filter pool, fee-history cache).
-/

namespace Allfeat

/-! ## Frontier backend and ethereum configuration (`node/src/eth.rs`) -/

/-- `FrontierBackendType` from `eth.rs`: available frontier backend types. -/
inductive FrontierBackendType where
  /-- Either RocksDb or ParityDb as per inherited from the global backend settings. -/
  | KeyValue
  /-- Sql database with custom log indexing. -/
  | Sql
deriving DecidableEq, Repr

/-- `EthConfiguration` from `eth.rs`: the ethereum-compatibility configuration
used to run a node, with exactly the fields declared in the source. -/
structure EthConfiguration where
  max_past_logs : Nat
  fee_history_limit : Nat
  enable_dev_signer : Bool
  target_gas_price : Nat
  execute_gas_limit_multiplier : Nat
  eth_log_block_cache : Nat
  eth_statuses_cache : Nat
  frontier_backend_type : FrontierBackendType
  frontier_sql_backend_pool_size : Nat
  frontier_sql_backend_num_ops_timeout : Nat
  frontier_sql_backend_thread_count : Nat
  frontier_sql_backend_cache_size : Nat
deriving DecidableEq, Repr

/-- The clap `default_value` of every `EthConfiguration` field, as written in
the `#[arg(...)]` attributes of `eth.rs`. -/
def EthConfiguration.defaults : EthConfiguration :=
  { max_past_logs := 10000
    fee_history_limit := 2048
    enable_dev_signer := false
    target_gas_price := 1
    execute_gas_limit_multiplier := 10
    eth_log_block_cache := 50
    eth_statuses_cache := 50
    frontier_backend_type := .KeyValue
    frontier_sql_backend_pool_size := 100
    frontier_sql_backend_num_ops_timeout := 10000000
    frontier_sql_backend_thread_count := 4
    frontier_sql_backend_cache_size := 209715200 }

/-! ## Background tasks

Each `spawn` / `spawn_blocking` call in the source is recorded as a
`SpawnedTask`: its name, its group, whether it went through
`spawn_essential_handle()` (essential) or `spawn_handle()` (best-effort),
whether it was `spawn_blocking`, and which worker it runs, together with
the numeric arguments the source passes to that worker. -/

/-- `SqlSyncWorkerConfig` from `fc_mapping_sync::sql`, as instantiated in
`spawn_tasks`; durations recorded in seconds. -/
structure SqlSyncWorkerConfig where
  read_notification_timeout : Nat
  check_indexed_blocks_interval : Nat
deriving DecidableEq, Repr

/-- The unit of work a spawned task runs, with the configuration constants the
source passes to it. -/
inductive Worker where
  /-- `fc_mapping_sync::kv::MappingSyncWorker` consuming
  `client.import_notification_stream()`: poll interval (seconds),
  retry times, sync-from block. -/
  | mappingSyncKv (pollIntervalSecs retryTimes syncFrom : Nat)
  /-- `fc_mapping_sync::sql::SyncWorker::run` consuming
  `client.import_notification_stream()`, with its `SqlSyncWorkerConfig`. -/
  | mappingSyncSql (cfg : SqlSyncWorkerConfig)
  /-- `EthTask::filter_pool_task` with its retain threshold. -/
  | filterPoolTask (retainThreshold : Nat)
  /-- `EthTask::fee_history_task` with the fee-history cache limit. -/
  | feeHistoryTask (cacheLimit : Nat)
  /-- `sc_consensus_grandpa::run_grandpa_voter`. -/
  | grandpaVoter
  /-- `sc_consensus_babe::start_babe`. -/
  | babeProposer
  /-- `sc_authority_discovery` worker. -/
  | authorityDiscovery
  /-- `sc_offchain::OffchainWorkers`. -/
  | offchainWorkers
  /-- telemetry worker spawned in `new_partial`. -/
  | telemetryWorker
  /-- `sc_sysinfo::initialize_hwbench_telemetry`. -/
  | telemetryHwbench
  /-- `sc_storage_monitor::StorageMonitorService`. -/
  | storageMonitor
deriving DecidableEq, Repr

/-- One task handed to the task manager. -/
structure SpawnedTask where
  name : String
  group : Option String
  essential : Bool
  blocking : Bool
  worker : Worker
deriving DecidableEq, Repr

/-- Modelled from the spec: the Background Task Supervisor's failure policy
(`sc_service::TaskManager` is external to `src/`): termination of an
essential task's unit of work is fatal to the whole node process, while a
best-effort task's termination is not. -/
def supervisorFatal (tasks : List SpawnedTask) (terminated : String) : Bool :=
  tasks.any (fun t => t.name == terminated && t.essential)

/-! ## `spawn_tasks` (`node/src/eth.rs`)

A filter pool maps a filter id to the height it was created at. -/

/-- In-memory view of frontier's `FilterPool`: (filter id, creation height). -/
abbrev FilterPool := List (Nat × Nat)

/-- `FILTER_RETAIN_THRESHOLD` from `spawn_tasks`: each filter is allowed to
stay in the pool for 100 blocks. -/
def FILTER_RETAIN_THRESHOLD : Nat := 100

/-- The mapping-sync task spawned for the `KeyValue` backend: `spawn` (not
blocking) on the essential handle, `Duration::new(6, 0)` poll interval,
3 retries, syncing from block 0. -/
def kvMappingSyncTask : SpawnedTask :=
  { name := "frontier-mapping-sync-worker"
    group := some "frontier"
    essential := true
    blocking := false
    worker := .mappingSyncKv 6 3 0 }

/-- The mapping-sync task spawned for the `Sql` backend: `spawn_blocking` on
the essential handle, read timeout `Duration::from_secs(30)`, indexed-blocks
check interval `Duration::from_secs(60)`. -/
def sqlMappingSyncTask : SpawnedTask :=
  { name := "frontier-mapping-sync-worker"
    group := some "frontier"
    essential := true
    blocking := true
    worker := .mappingSyncSql ⟨30, 60⟩ }

/-- The `EthTask::filter_pool_task` maintenance task, spawned on the
essential handle. -/
def filterPoolSpawnedTask : SpawnedTask :=
  { name := "frontier-filter-pool"
    group := some "frontier"
    essential := true
    blocking := false
    worker := .filterPoolTask FILTER_RETAIN_THRESHOLD }

/-- The `EthTask::fee_history_task` maintenance task, spawned on the
essential handle. -/
def feeHistorySpawnedTask (fee_history_cache_limit : Nat) : SpawnedTask :=
  { name := "frontier-fee-history"
    group := some "frontier"
    essential := true
    blocking := false
    worker := .feeHistoryTask fee_history_cache_limit }

/-- `spawn_tasks` from `eth.rs`, recorded as the list of tasks it spawns, in
source order: the mapping-sync worker variant selected by matching on
`frontier_backend`, then (only when a filter pool is supplied) the
filter-pool maintenance task, then the fee-history maintenance task. -/
def spawn_tasks (frontier_backend : FrontierBackendType)
    (filter_pool : Option FilterPool)
    (fee_history_cache_limit : Nat) : List SpawnedTask :=
  (match frontier_backend with
    | .KeyValue => [kvMappingSyncTask]
    | .Sql => [sqlMappingSyncTask])
  ++ (match filter_pool with
    | some _ => [filterPoolSpawnedTask]
    | none => [])
  ++ [feeHistorySpawnedTask fee_history_cache_limit]

/-- Is this task one of the two EVM-compatibility indexer (mapping sync)
variants? -/
def isMappingSync (t : SpawnedTask) : Bool :=
  match t.worker with
  | .mappingSyncKv _ _ _ => true
  | .mappingSyncSql _ => true
  | _ => false

/-- Extract the `SqlSyncWorkerConfig` of a batched (Sql) sync worker task. -/
def sqlWorkerConfig (t : SpawnedTask) : Option SqlSyncWorkerConfig :=
  match t.worker with
  | .mappingSyncSql cfg => some cfg
  | _ => none

/-- All `SqlSyncWorkerConfig`s among a list of spawned tasks. -/
def spawnedSqlWorkerConfigs (ts : List SpawnedTask) : List SqlSyncWorkerConfig :=
  ts.filterMap sqlWorkerConfig

/-! ## The block-import pipeline (`new_partial` in `node/src/service.rs`)

`new_partial` wires `sc_consensus_babe::block_import` around
`sc_consensus_grandpa::block_import` around the client: the composed
`block_import` is `BabeBlockImport(inner = GrandpaBlockImport(inner = client))`.
The internals of the two wrappers are external to `src/`, so each wrapper is
modelled from the spec as a check-then-delegate stage; the composition order
is the one written in `new_partial`. Blocks are identified by `Nat`. -/

/-- A stage of the import pipeline. -/
inductive Stage where
  | babe
  | grandpa
  | commit
deriving DecidableEq, Repr

/-- Outcome of importing one candidate block. -/
inductive ImportOutcome where
  | imported
  | invalid (rejectedAt : Stage)
deriving DecidableEq, Repr

/-- Chain-store state threaded through an import, with an observation trace of
the stages that ran, in order. -/
structure ImportState where
  committed : List Nat
  trace : List Stage
deriving DecidableEq, Repr

/-- Modelled from the spec: the terminal base-client commit stage (the client's
`BlockImport` impl is external to `src/`): committing stores the block
durably. -/
def clientCommit (st : ImportState) (b : Nat) : ImportState × ImportOutcome :=
  ({ committed := st.committed ++ [b], trace := st.trace ++ [Stage.commit] },
   ImportOutcome.imported)

/-- Modelled from the spec: `sc_consensus_grandpa::block_import`'s wrapper
(external to `src/`): run the finality-safety check; on success delegate to
the inner import, on failure reject as `Invalid` without running it. -/
def grandpa_block_import (grandpaOk : Nat → Bool)
    (inner : ImportState → Nat → ImportState × ImportOutcome)
    (st : ImportState) (b : Nat) : ImportState × ImportOutcome :=
  let st1 : ImportState := { st with trace := st.trace ++ [Stage.grandpa] }
  if grandpaOk b then inner st1 b else (st1, ImportOutcome.invalid Stage.grandpa)

/-- Modelled from the spec: `sc_consensus_babe::block_import`'s wrapper
(external to `src/`): run the slot-authoring-compatibility check; on success
delegate to the inner import, on failure reject without running it. -/
def babe_block_import (babeOk : Nat → Bool)
    (inner : ImportState → Nat → ImportState × ImportOutcome)
    (st : ImportState) (b : Nat) : ImportState × ImportOutcome :=
  let st1 : ImportState := { st with trace := st.trace ++ [Stage.babe] }
  if babeOk b then inner st1 b else (st1, ImportOutcome.invalid Stage.babe)

/-- The composed block import exactly as wired in `new_partial`:
babe wraps grandpa wraps the client commit. -/
def new_partial_block_import (babeOk grandpaOk : Nat → Bool) :
    ImportState → Nat → ImportState × ImportOutcome :=
  babe_block_import babeOk (grandpa_block_import grandpaOk clientCommit)

/-! ## Node startup (`start_node_impl` / `start_node` in `node/src/service.rs`) -/

/-- `sc_network::config::NetworkBackendType`, matched on by `start_node`. -/
inductive NetworkBackendType where
  | Libp2p
  | Litep2p
deriving DecidableEq, Repr

/-- The slice of `sc_service::Configuration` that `start_node` /
`start_node_impl` branch on when spawning tasks. -/
structure NodeConfig where
  /-- `config.disable_grandpa`; `enable_grandpa` in the source is its negation. -/
  disable_grandpa : Bool
  /-- `config.role.is_authority()` (the `validator` binding). -/
  role_is_authority : Bool
  /-- `config.offchain_worker.enabled`. -/
  offchain_worker_enabled : Bool
  /-- whether `config.telemetry_endpoints` yields a telemetry worker. -/
  telemetry_enabled : Bool
  /-- whether hardware benchmarks ran (`hwbench` is `Some`). -/
  hwbench : Bool
  /-- whether `config.database.path()` is `Some`. -/
  has_database_path : Bool
  /-- `config.network.network_backend`. -/
  network_backend : NetworkBackendType
deriving DecidableEq, Repr

/-- The grandpa voter task: `spawn_essential_handle().spawn_blocking`
("grandpa-voter", no group). -/
def grandpaVoterTask : SpawnedTask :=
  { name := "grandpa-voter"
    group := none
    essential := true
    blocking := true
    worker := .grandpaVoter }

/-- The authority-discovery worker spawned by the `start_consensus` closure,
on the ordinary (best-effort) handle. -/
def authorityDiscoveryTask : SpawnedTask :=
  { name := "authority-discovery-worker"
    group := some "networking"
    essential := false
    blocking := false
    worker := .authorityDiscovery }

/-- The babe proposer spawned by the `start_consensus` closure via
`spawn_essential_handle().spawn_blocking`. -/
def babeProposerTask : SpawnedTask :=
  { name := "babe-proposer"
    group := some "block-authoring"
    essential := true
    blocking := true
    worker := .babeProposer }

/-- The tasks spawned by the `start_consensus` closure passed by `start_node`:
the authority-discovery worker, then the babe proposer. -/
def start_consensus_tasks : List SpawnedTask :=
  [authorityDiscoveryTask, babeProposerTask]

/-- The tasks spawned by `start_node_impl` (given the `start_consensus`
closure from `start_node`), in source order: the telemetry worker from
`new_partial` when telemetry is configured, the offchain-workers runner when
enabled, the hwbench telemetry task when hardware benchmarks ran and
telemetry is up, the storage monitor on the essential handle when a database
path exists, the consensus (authoring) tasks when the node is a validator,
and the grandpa voter when grandpa is not disabled. -/
def start_node_impl_tasks (cfg : NodeConfig) : List SpawnedTask :=
  (if cfg.telemetry_enabled then
    [{ name := "telemetry", group := none, essential := false, blocking := false,
       worker := .telemetryWorker }]
   else [])
  ++ (if cfg.offchain_worker_enabled then
    [{ name := "offchain-workers-runner", group := some "offchain-work",
       essential := false, blocking := false, worker := .offchainWorkers }]
   else [])
  ++ (if cfg.hwbench && cfg.telemetry_enabled then
    [{ name := "telemetry_hwbench", group := none, essential := false,
       blocking := false, worker := .telemetryHwbench }]
   else [])
  ++ (if cfg.has_database_path then
    [{ name := "storage-monitor", group := none, essential := true,
       blocking := false, worker := .storageMonitor }]
   else [])
  ++ (if cfg.role_is_authority then start_consensus_tasks else [])
  ++ (if cfg.disable_grandpa then [] else [grandpaVoterTask])

/-- Result of `start_node`: either a normally started node (its spawned
tasks) or a panic — `todo!()` diverges instead of returning a `Result`. -/
inductive StartOutcome where
  | ok (tasks : List SpawnedTask)
  | panicked (msg : String)
deriving DecidableEq, Repr

/-- `start_node` from `service.rs`: matches on the network backend; `Libp2p`
runs `start_node_impl` with the babe/authority-discovery `start_consensus`
closure, `Litep2p` hits `todo!()` and panics. -/
def start_node (cfg : NodeConfig) : StartOutcome :=
  match cfg.network_backend with
  | .Libp2p => .ok (start_node_impl_tasks cfg)
  | .Litep2p => .panicked "not yet implemented"

/-! ## Log-filter pool maintenance (driven by `EthTask::filter_pool_task`) -/

/-- Modelled from the spec: one maintenance pass of `fc_rpc::EthTask`'s
filter-pool task (external to `src/`): at current chain height `current`,
remove every filter whose `creation_height + retention < current`. -/
def filter_pool_maintain (retention current : Nat) (pool : FilterPool) :
    FilterPool :=
  pool.filter (fun f => !decide (f.2 + retention < current))

/-! ## Fee-history cache maintenance (driven by `EthTask::fee_history_task`) -/

/-- Fee-history cache: entries (block height, fee summary). -/
abbrev FeeHistoryCache := List (Nat × Nat)

/-- The lowest height present in a fee-history cache. -/
def minHeight : FeeHistoryCache → Nat
  | [] => 0
  | e :: es => es.foldl (fun m f => min m f.1) e.1

/-- Remove the entry holding the lowest height (the first such entry). -/
def evictLowest (c : FeeHistoryCache) : FeeHistoryCache :=
  c.eraseP (fun e => e.1 == minHeight c)

/-- Modelled from the spec: one step of `fc_rpc::EthTask::fee_history_task`'s
cache maintenance (external to `src/`): insert the block's fee summary keyed
by its height (replacing a stale entry at the same height), and if the cache
now exceeds its configured maximum size, evict the lowest-height entry. -/
def fee_history_insert (limit : Nat) (cache : FeeHistoryCache)
    (height summary : Nat) : FeeHistoryCache :=
  if limit < ((height, summary) :: cache.filter (fun e => e.1 != height)).length
  then evictLowest ((height, summary) :: cache.filter (fun e => e.1 != height))
  else (height, summary) :: cache.filter (fun e => e.1 != height)

/-- An import notification as consumed by the fee-history task: block height,
derived fee summary, and whether the block extends the current best chain. -/
structure ImportNotification where
  height : Nat
  summary : Nat
  is_new_best : Bool
deriving DecidableEq, Repr

/-- Modelled from the spec: the fee-history maintenance task as a fold over
the block-import notification stream (no separate timer): each notification
for a block extending the best chain inserts that block's fee summary. -/
def fee_history_task (limit : Nat) (notifs : List ImportNotification)
    (cache : FeeHistoryCache) : FeeHistoryCache :=
  notifs.foldl
    (fun c n => if n.is_new_best then fee_history_insert limit c n.height n.summary else c)
    cache

/-! ## Helper lemmas -/

theorem foldl_min_eq_or_mem (es : List (Nat × Nat)) (a : Nat) :
    es.foldl (fun m f => min m f.1) a = a
      ∨ ∃ e ∈ es, es.foldl (fun m f => min m f.1) a = e.1 := by
  induction es generalizing a with
  | nil => exact Or.inl rfl
  | cons e es ih =>
    simp only [List.foldl_cons]
    rcases ih (min a e.1) with h | ⟨f, hf, h⟩
    · rcases Nat.le_total a e.1 with hle | hle
      · exact Or.inl (h.trans (Nat.min_eq_left hle))
      · exact Or.inr ⟨e, List.mem_cons_self e es, h.trans (Nat.min_eq_right hle)⟩
    · exact Or.inr ⟨f, List.mem_cons_of_mem e hf, h⟩

theorem minHeight_mem (c : FeeHistoryCache) (hc : c ≠ []) :
    ∃ e ∈ c, e.1 = minHeight c := by
  match c with
  | [] => exact absurd rfl hc
  | e :: es =>
    rcases foldl_min_eq_or_mem es e.1 with h | ⟨f, hf, h⟩
    · exact ⟨e, List.mem_cons_self e es, h.symm⟩
    · exact ⟨f, List.mem_cons_of_mem e hf, h.symm⟩

theorem evictLowest_length (c : FeeHistoryCache) (hc : c ≠ []) :
    (evictLowest c).length = c.length - 1 := by
  obtain ⟨e, he, hmin⟩ := minHeight_mem c hc
  exact List.length_eraseP_of_mem he (by simpa using hmin)

theorem fee_history_insert_length (limit : Nat) (cache : FeeHistoryCache)
    (h s : Nat) (hc : cache.length ≤ limit) :
    (fee_history_insert limit cache h s).length ≤ limit := by
  unfold fee_history_insert
  have hlen : ((h, s) :: cache.filter (fun e => e.1 != h)).length
      ≤ cache.length + 1 := by
    simpa using Nat.succ_le_succ (List.length_filter_le _ cache)
  split
  · rw [evictLowest_length _ (by simp)]
    omega
  · omega

theorem fee_history_task_length (limit : Nat) (notifs : List ImportNotification)
    (cache : FeeHistoryCache) (hc : cache.length ≤ limit) :
    (fee_history_task limit notifs cache).length ≤ limit := by
  induction notifs generalizing cache with
  | nil => exact hc
  | cons n ns ih =>
    simp only [fee_history_task, List.foldl_cons] at *
    split
    · exact ih _ (fee_history_insert_length limit cache n.height n.summary hc)
    · exact ih _ hc

/-! ## Claim theorems -/

/-- Claim C1: the block-import pipeline wired in `new_partial` is exactly two
pre-validation stages in a fixed order around the terminal client commit: the
BABE slot-authoring check runs first, then the GRANDPA finality-safety check,
and only a candidate passing both reaches the client commit; a rejection at
either stage prevents the later stage (and the commit) from running, leaving
the committed chain unchanged. -/
theorem c1_import_pipeline_two_stages (babeOk grandpaOk : Nat → Bool)
    (st : ImportState) (b : Nat) :
    (new_partial_block_import babeOk grandpaOk st b).1.trace
        = st.trace ++ (if babeOk b then
            (if grandpaOk b then [Stage.babe, Stage.grandpa, Stage.commit]
             else [Stage.babe, Stage.grandpa])
          else [Stage.babe])
    ∧ (new_partial_block_import babeOk grandpaOk st b).2
        = (if babeOk b then
            (if grandpaOk b then ImportOutcome.imported
             else ImportOutcome.invalid Stage.grandpa)
          else ImportOutcome.invalid Stage.babe)
    ∧ (new_partial_block_import babeOk grandpaOk st b).1.committed
        = (if babeOk b && grandpaOk b then st.committed ++ [b] else st.committed) := by
  unfold new_partial_block_import babe_block_import grandpa_block_import clientCommit
  cases hb : babeOk b <;> cases hg : grandpaOk b <;>
    simp [List.append_assoc]

/-- Claim C2: `spawn_tasks` spawns exactly one EVM-compatibility indexer
variant, selected once from the frontier backend value alone: the `KeyValue`
backend yields the streaming kv mapping-sync worker, the `Sql` backend the
batched sql sync worker, never both, independently of the other arguments. -/
theorem c2_indexer_variant_selection (be : FrontierBackendType)
    (fp : Option FilterPool) (limit : Nat) :
    (spawn_tasks be fp limit).filter isMappingSync
      = [match be with
         | .KeyValue => kvMappingSyncTask
         | .Sql => sqlMappingSyncTask] := by
  cases be <;> cases fp <;> rfl

/-- Claim C3 counterexample: at a concrete configuration, the filter-pool
maintenance task is spawned with `essential = true` (the source uses
`spawn_essential_handle()`), so its termination is fatal to the node — the
claim that it is a best-effort task whose failure leaves the node running is
false. -/
theorem c3_filter_pool_not_best_effort :
    filterPoolSpawnedTask ∈ spawn_tasks .KeyValue (some [(1, 0)]) 2048
    ∧ filterPoolSpawnedTask.essential = true
    ∧ supervisorFatal (spawn_tasks .KeyValue (some [(1, 0)]) 2048)
        "frontier-filter-pool" = true := by
  refine ⟨?_, rfl, rfl⟩
  simp [spawn_tasks]

/-- Claim C3 (amended): the log-filter pool maintenance worker is spawned on
the essential-task handle: for every backend and configuration with a filter
pool, the task named "frontier-filter-pool" is essential, so termination of
its unit of work is fatal to the whole node, not merely recorded. -/
theorem c3_filter_pool_task_essential (be : FrontierBackendType)
    (pool : FilterPool) (limit : Nat) :
    (spawn_tasks be (some pool) limit).filter
        (fun t => t.name == "frontier-filter-pool") = [filterPoolSpawnedTask]
    ∧ filterPoolSpawnedTask.essential = true
    ∧ supervisorFatal (spawn_tasks be (some pool) limit)
        "frontier-filter-pool" = true := by
  cases be <;> exact ⟨rfl, rfl, rfl⟩

/-- Claim C4: when `disable_grandpa` is false the grandpa-voter task is
spawned (via the essential handle, `spawn_blocking`), and its termination is
fatal to the node; when `disable_grandpa` is true it is not spawned at all,
and no termination of "grandpa-voter" is fatal. -/
theorem c4_grandpa_voter_essential (cfg : NodeConfig) :
    (start_node_impl_tasks cfg).filter (fun t => t.name == "grandpa-voter")
        = (if cfg.disable_grandpa then [] else [grandpaVoterTask])
    ∧ grandpaVoterTask.essential = true
    ∧ supervisorFatal (start_node_impl_tasks cfg) "grandpa-voter"
        = !cfg.disable_grandpa := by
  obtain ⟨dg, auth, ocw, tel, hw, db, nb⟩ := cfg
  cases dg <;> cases auth <;> cases ocw <;> cases tel <;> cases hw <;> cases db <;>
    exact ⟨rfl, rfl, rfl⟩

/-- Claim C5: the slot-based authoring loop is started iff the node holds
validator credentials: the consensus tasks (ending in the essential
babe-proposer) appear in the spawned tasks exactly when
`config.role.is_authority()` is true, and a non-validator node never spawns
the authoring task. -/
theorem c5_authoring_iff_authority (cfg : NodeConfig) :
    (start_node_impl_tasks cfg).filter (fun t => t.name == "babe-proposer")
        = (if cfg.role_is_authority then [babeProposerTask] else [])
    ∧ babeProposerTask.essential = true
    ∧ (start_node_impl_tasks cfg).any (fun t => t.worker == Worker.babeProposer)
        = cfg.role_is_authority := by
  obtain ⟨dg, auth, ocw, tel, hw, db, nb⟩ := cfg
  cases dg <;> cases auth <;> cases ocw <;> cases tel <;> cases hw <;> cases db <;>
    exact ⟨rfl, rfl, rfl⟩

/-- Claim C6: a filter-pool maintenance pass at current height `current` with
the source's threshold of 100 blocks keeps a filter created at height `h`
iff `current - h ≤ 100`: with the spec's example, a filter created at height
50 is removed by a pass at height 151 but kept by a pass at height 150. -/
theorem c6_filter_eviction_window (pool : FilterPool) (current : Nat)
    (f : Nat × Nat) :
    f ∈ filter_pool_maintain FILTER_RETAIN_THRESHOLD current pool
      ↔ f ∈ pool ∧ current - f.2 ≤ 100 := by
  simp only [filter_pool_maintain, FILTER_RETAIN_THRESHOLD, List.mem_filter,
    Bool.not_eq_true', decide_eq_false_iff_not, Nat.not_lt]
  constructor
  · rintro ⟨h1, h2⟩
    exact ⟨h1, by omega⟩
  · rintro ⟨h1, h2⟩
    exact ⟨h1, by omega⟩

/-- Witness for C6 at the spec's example: a filter created at height 50 is
kept by the pass at height 150 and removed by the pass at height 151. -/
theorem c6_filter_eviction_window_witness :
    (1, 50) ∈ filter_pool_maintain FILTER_RETAIN_THRESHOLD 150 [(1, 50)]
    ∧ (1, 50) ∉ filter_pool_maintain FILTER_RETAIN_THRESHOLD 151 [(1, 50)] :=
  ⟨(c6_filter_eviction_window [(1, 50)] 150 (1, 50)).mpr ⟨by decide, by decide⟩,
   fun hmem =>
     absurd ((c6_filter_eviction_window [(1, 50)] 151 (1, 50)).mp hmem).2
       (by decide)⟩

/-- Claim C7: the fee-history maintenance is a fold over the block-import
notification stream and keeps the cache within the configured limit: from any
cache within the bound, processing any notification stream leaves at most
`limit` entries (an overflowing insertion evicts the lowest-height entry);
the configured limit `fee_history_limit` defaults to 2048. -/
theorem c7_fee_history_cache_bound (limit : Nat)
    (notifs : List ImportNotification) (cache : FeeHistoryCache)
    (hc : cache.length ≤ limit) :
    (fee_history_task limit notifs cache).length ≤ limit
    ∧ EthConfiguration.defaults.fee_history_limit = 2048 :=
  ⟨fee_history_task_length limit notifs cache hc, rfl⟩

/-- Witness for C7: three best-chain notifications into an empty cache with
limit 2 leave at most 2 entries. -/
theorem c7_fee_history_cache_bound_witness :
    ([] : FeeHistoryCache).length ≤ 2
    ∧ (fee_history_task 2 [⟨1, 10, true⟩, ⟨2, 20, true⟩, ⟨3, 30, true⟩]
        []).length ≤ 2 :=
  ⟨by decide,
   (c7_fee_history_cache_bound 2 [⟨1, 10, true⟩, ⟨2, 20, true⟩, ⟨3, 30, true⟩]
      [] (by decide)).1⟩

/-- Claim C8 counterexample: the batched (Sql) sync worker's read timeout and
backfill scan interval are not taken from the configuration surface: two
node configurations differing in every `spawn_tasks` argument other than the
backend produce the identical hardcoded `SqlSyncWorkerConfig` of 30 s /
60 s (`EthConfiguration` has no field for either value). -/
theorem c8_sql_timeouts_hardcoded_counterexample :
    spawnedSqlWorkerConfigs (spawn_tasks .Sql none 2048)
        = [{ read_notification_timeout := 30, check_indexed_blocks_interval := 60 }]
    ∧ spawnedSqlWorkerConfigs (spawn_tasks .Sql (some [(7, 123)]) 1)
        = [{ read_notification_timeout := 30, check_indexed_blocks_interval := 60 }] :=
  ⟨rfl, rfl⟩

/-- Claim C8 (amended): the batched sync worker's read-notification timeout
and missing-block scan interval are hardcoded in `spawn_tasks` at 30 and 60
seconds for every configuration; only the thread limit, per-query operation
ceiling, cache size and pool size are `EthConfiguration` options (with the
defaults shown). -/
theorem c8_sql_worker_config_constants (fp : Option FilterPool) (limit : Nat) :
    spawnedSqlWorkerConfigs (spawn_tasks .Sql fp limit)
        = [{ read_notification_timeout := 30, check_indexed_blocks_interval := 60 }]
    ∧ EthConfiguration.defaults.frontier_sql_backend_thread_count = 4
    ∧ EthConfiguration.defaults.frontier_sql_backend_num_ops_timeout = 10000000
    ∧ EthConfiguration.defaults.frontier_sql_backend_cache_size = 209715200
    ∧ EthConfiguration.defaults.frontier_sql_backend_pool_size = 100 := by
  cases fp <;> exact ⟨rfl, rfl, rfl, rfl, rfl⟩

/-- Claim C9: `start_node` supports only the Libp2p backend: for every
configuration whose network backend is Litep2p it reaches `todo!()` and
panics instead of returning a result. -/
theorem c9_litep2p_panics (cfg : NodeConfig)
    (h : cfg.network_backend = NetworkBackendType.Litep2p) :
    start_node cfg = StartOutcome.panicked "not yet implemented"
    ∧ ∀ ts, start_node cfg ≠ StartOutcome.ok ts := by
  unfold start_node
  rw [h]
  exact ⟨rfl, fun ts hts => by simp at hts⟩

/-- Witness for C9 at a concrete Litep2p configuration. -/
theorem c9_litep2p_panics_witness :
    start_node ⟨false, false, false, false, false, false, .Litep2p⟩
      = StartOutcome.panicked "not yet implemented" :=
  (c9_litep2p_panics ⟨false, false, false, false, false, false, .Litep2p⟩ rfl).1

/-- Claim C10: with `filter_pool = None`, `spawn_tasks` spawns no filter-pool
maintenance task at all, while exactly one mapping-sync worker and exactly
one fee-history maintenance task are spawned for every argument choice. -/
theorem c10_no_filter_pool_task_when_none (be : FrontierBackendType)
    (limit : Nat) (fp : Option FilterPool) :
    (spawn_tasks be none limit).filter
        (fun t => t.name == "frontier-filter-pool") = []
    ∧ (spawn_tasks be fp limit).countP isMappingSync = 1
    ∧ (spawn_tasks be fp limit).countP
        (fun t => t.name == "frontier-fee-history") = 1 := by
  cases be <;> cases fp <;> exact ⟨rfl, rfl, rfl⟩

end Allfeat
